import Mathlib

/-!
Verification development for the local multi-service supervisor of the
Price Optimizer desktop application.  The embedded code comes from
src/electron/main.js: the readiness poller checkServer, the process
bookkeeping of startBackend / startFrontend, the cleanup routine, the
startup sequence in the app.whenReady handler, and the window lifecycle
handlers.  Machine behaviour that the source relies on (HTTP attempt
outcomes, POSIX signal semantics, the default exit status of an Electron
app that quits without an explicit code) is modelled explicitly and
documented at the corresponding definition.
-/

namespace Supervisor

/-- Outcome of one HTTP poll attempt, supplied by the environment: either an
HTTP response with a status code arriving after d milliseconds, or a
connection failure (refusal, reset) whose error event fires after d
milliseconds. -/
inductive Attempt where
  | response (status : Nat) (d : Nat)
  | failAfter (d : Nat)
deriving DecidableEq

/-- Fixed retry delay of checkServer: setTimeout(check, 500) in main.js. -/
def retryDelay : Nat := 500

/-- Per-attempt timeout of checkServer: the timeout: 2000 option on each
http.request in main.js; after 2000 ms of inactivity the timeout event
fires and the request is destroyed. -/
def reqTimeout : Nat := 2000

/-- Whether an attempt ends in the response handler of checkServer.  A
response that would arrive only after the per-attempt timeout is cut off
by the timeout event instead, so only a response within reqTimeout
reaches the response callback.  The source response callback resolves the
promise with true on any response, with no inspection of the status
code. -/
def attemptResolve : Attempt → Bool
  | .response _ d => d ≤ reqTimeout
  | .failAfter _ => false

/-- Milliseconds consumed by an attempt before its terminal event (response,
error, or the 2000 ms per-attempt timeout) fires. -/
def attemptTime : Attempt → Nat
  | .response _ d => min d reqTimeout
  | .failAfter d => min d reqTimeout

/-- Result of a checkServer run: resolved b t k means the promise resolved
with boolean b at elapsed time t on attempt k; rejected t k means it
rejected at elapsed time t on attempt k; fuelOut is the artefact of the
fuel-based embedding and is proved unreachable. -/
inductive ProbeOutcome where
  | resolved (b : Bool) (t : Nat) (k : Nat)
  | rejected (t : Nat) (k : Nat)
  | fuelOut
deriving DecidableEq

/-- One step of the check loop of checkServer in main.js, recursing on fuel.
At attempt i, elapsed time t: on a response, resolve(true); on an error or
per-attempt timeout, compare Date.now() - startTime (the failure instant)
against the overall timeout, rejecting when it is exceeded and otherwise
rescheduling the check after 500 ms. -/
def probeAux (env : Nat → Attempt) (timeout : Nat) (i t : Nat) : Nat → ProbeOutcome
  | 0 => .fuelOut
  | fuel + 1 =>
    if attemptResolve (env i) then
      .resolved true (t + attemptTime (env i)) i
    else if timeout < t + attemptTime (env i) then
      .rejected (t + attemptTime (env i)) i
    else
      probeAux env timeout (i + 1) (t + attemptTime (env i) + retryDelay) fuel

/-- The checkServer(port, timeout) promise of main.js, as a function of the
environment of attempt outcomes for the probed endpoint.  The fuel
timeout / retryDelay + 2 is enough for the loop to reach its own verdict,
as proved below. -/
def checkServer (env : Nat → Attempt) (timeout : Nat) : ProbeOutcome :=
  probeAux env timeout 0 0 (timeout / retryDelay + 2)

/-- Environment of an endpoint that refuses every connection instantly:
every attempt fails with an immediate error event. -/
def refuseAlways : Nat → Attempt := fun _ => .failAfter 0

/-- Environment whose first attempt returns an HTTP 500 response
immediately. -/
def serverError : Nat → Attempt := fun _ => .response 500 0

/-- Environment that fails instantly on attempts 0 to 3 and would deliver an
HTTP 200 from attempt 4 on; used to show that attempts past a rejection
are never consulted. -/
def lateSuccess : Nat → Attempt :=
  fun j => if j ≤ 3 then .failAfter 0 else .response 200 0

/-- Observable events of the Electron main process: spawning a service,
awaiting its readiness succeeding, sending SIGTERM to a service in
cleanup, quitting the app, and creating the main window. -/
inductive Ev where
  | spawnBackend
  | spawnFrontend
  | backendReady
  | frontendReady
  | killBackend
  | killFrontend
  | quitApp
  | createMainWindow
deriving DecidableEq

/-- The two module-level process references of main.js: python is true when
pythonProcess is non-null, next is true when nextProcess is non-null. -/
structure Procs where
  python : Bool
  next : Bool
deriving DecidableEq

/-- The cleanup() function of main.js: if pythonProcess is non-null, send it
SIGTERM and null the reference; then the same for nextProcess, in that
textual order.  Returns the new reference state and the kill events in the
order they are issued. -/
def cleanup (s : Procs) : Procs × List Ev :=
  (⟨false, false⟩,
    (if s.python then [Ev.killBackend] else []) ++
    (if s.next then [Ev.killFrontend] else []))

/-- Iterating cleanup() n times from a state, accumulating all emitted kill
events in order. -/
def cleanupN : Nat → Procs → Procs × List Ev
  | 0, s => (s, [])
  | n + 1, s =>
    ((cleanupN n (cleanup s).1).1, (cleanup s).2 ++ (cleanupN n (cleanup s).1).2)

/-- The exit listener installed on pythonProcess in startBackend(): it logs
the exit and sets pythonProcess = null, and does nothing else — no signal
to the frontend, no app.quit. -/
def onBackendExit (s : Procs) : Procs × List Ev :=
  (⟨false, s.next⟩, [])

/-- POSIX signals that the teardown code can send. -/
inductive Sig where
  | sigterm
  | sigkill
deriving DecidableEq

/-- Signals cleanup() sends to the backend process: exactly one SIGTERM when
it is tracked, from pythonProcess.kill(SIGTERM). -/
def backendKillSignals (s : Procs) : List Sig :=
  if s.python then [Sig.sigterm] else []

/-- Signals cleanup() sends to the frontend process: exactly one SIGTERM when
it is tracked, from nextProcess.kill(SIGTERM). -/
def frontendKillSignals (s : Procs) : List Sig :=
  if s.next then [Sig.sigterm] else []

/-- POSIX signal semantics for whether a process is still running after
teardown has sent it the given signals: SIGKILL cannot be ignored and
always terminates; SIGTERM terminates the process unless it ignores the
signal; a process that received no terminating signal keeps running. -/
def survivesTeardown (ignoresTerm : Bool) (sigs : List Sig) : Bool :=
  if sigs.contains Sig.sigkill then false
  else if sigs.contains Sig.sigterm then ignoresTerm
  else true

/-- Whether a checkServer outcome lands in the resolved branch of the await
in the app.whenReady handler (anything else throws into the catch). -/
def probeOk : ProbeOutcome → Bool
  | .resolved _ _ _ => true
  | _ => false

/-- Event trace of the try block of the app.whenReady handler in main.js, as
a function of the attempt environments of the two probed endpoints:
startBackend() and startFrontend() are both called first, then
checkServer(BACKEND_PORT, 60000) is awaited, then
checkServer(FRONTEND_PORT, 60000), then the main window is created; any
rejection jumps to the catch block, which runs cleanup() on the two
still-tracked processes and calls app.quit(). -/
def startupTrace (benv fenv : Nat → Attempt) : List Ev :=
  [Ev.spawnBackend, Ev.spawnFrontend] ++
  (if probeOk (checkServer benv 60000) then
    [Ev.backendReady] ++
    (if probeOk (checkServer fenv 60000) then
      [Ev.frontendReady, Ev.createMainWindow]
    else
      (cleanup ⟨true, true⟩).2 ++ [Ev.quitApp])
  else
    (cleanup ⟨true, true⟩).2 ++ [Ev.quitApp])

/-- Exit status of the session as determined by the startup sequence: when
the trace reaches app.quit() the Electron process exits, and since
main.js never calls app.exit with a code and never sets process.exitCode,
the status is the Electron default 0; when startup succeeds the session
keeps running (no exit status yet). -/
def startupExitStatus (benv fenv : Nat → Attempt) : Option Nat :=
  if Ev.quitApp ∈ startupTrace benv fenv then some 0 else none

/-- State of the Electron app relevant to the window lifecycle handlers:
the platform string, the two process references, and the number of open
browser windows. -/
structure AppState where
  platform : String
  procs : Procs
  windows : Nat
deriving DecidableEq

/-- The window-all-closed handler of main.js: runs cleanup()
unconditionally, then calls app.quit() only when process.platform is not
darwin. -/
def onWindowAllClosed (s : AppState) : AppState × List Ev :=
  if s.platform ≠ "darwin" then
    ({ s with procs := (cleanup s.procs).1 }, (cleanup s.procs).2 ++ [Ev.quitApp])
  else
    ({ s with procs := (cleanup s.procs).1 }, (cleanup s.procs).2)

/-- The activate handler of main.js: when no browser window is open it calls
createWindow(), which builds a BrowserWindow and the menu and spawns no
service process; otherwise it does nothing. -/
def onActivate (s : AppState) : AppState × List Ev :=
  if s.windows = 0 then
    ({ s with windows := 1 }, [Ev.createMainWindow])
  else
    (s, [])

/-- Concrete app state on macOS with both services tracked and every window
closed. -/
def darwinState : AppState :=
  { platform := "darwin", procs := ⟨true, true⟩, windows := 0 }

/-- When the probe loop resolves, it resolves with true, at the first
attempt (from the starting index on) whose response reaches the response
handler; all earlier attempts failed. -/
theorem probeAux_resolved (env : Nat → Attempt) (tmo : Nat) :
    ∀ fuel i t b t' k, probeAux env tmo i t fuel = .resolved b t' k →
      b = true ∧ i ≤ k ∧ attemptResolve (env k) = true ∧
        ∀ j, i ≤ j → j < k → attemptResolve (env j) = false := by
  intro fuel
  induction fuel with
  | zero => intro i t b t' k h; simp [probeAux] at h
  | succ n ih =>
    intro i t b t' k h
    rw [probeAux] at h
    cases hR : attemptResolve (env i) with
    | true =>
      rw [if_pos hR] at h
      obtain ⟨hb, -, hk⟩ := ProbeOutcome.resolved.inj h
      subst hb hk
      exact ⟨rfl, le_refl i, hR, fun j hij hji => absurd hij (by omega)⟩
    | false =>
      rw [if_neg (by simp [hR])] at h
      split at h
      · exact absurd h (by simp)
      · obtain ⟨hb, hik, hkr, hall⟩ := ih (i + 1) _ b t' k h
        refine ⟨hb, by omega, hkr, fun j hij hji => ?_⟩
        rcases Nat.eq_or_lt_of_le hij with hji' | hji'
        · exact hji' ▸ hR
        · exact hall j hji' hji

/-- When the probe loop rejects, the rejection instant strictly exceeds the
deadline, and every attempt from the starting index up to and including
the rejecting one failed. -/
theorem probeAux_rejected (env : Nat → Attempt) (tmo : Nat) :
    ∀ fuel i t t' k, probeAux env tmo i t fuel = .rejected t' k →
      tmo < t' ∧ i ≤ k ∧
        ∀ j, i ≤ j → j ≤ k → attemptResolve (env j) = false := by
  intro fuel
  induction fuel with
  | zero => intro i t t' k h; simp [probeAux] at h
  | succ n ih =>
    intro i t t' k h
    rw [probeAux] at h
    cases hR : attemptResolve (env i) with
    | true => rw [if_pos hR] at h; exact absurd h (by simp)
    | false =>
      rw [if_neg (by simp [hR])] at h
      split at h
      · next hlt =>
        obtain ⟨ht, hk⟩ := ProbeOutcome.rejected.inj h
        subst ht hk
        refine ⟨hlt, le_refl i, fun j hij hji => ?_⟩
        have : j = i := by omega
        exact this ▸ hR
      · obtain ⟨hto, hik, hall⟩ := ih (i + 1) _ t' k h
        refine ⟨hto, by omega, fun j hij hji => ?_⟩
        rcases Nat.eq_or_lt_of_le hij with hji' | hji'
        · exact hji' ▸ hR
        · exact hall j hji' hji

/-- The fuel chosen for the probe loop is sufficient: as long as the loop is
entered with elapsed time at most one retry delay past the deadline and
enough fuel to cover the remaining budget, it reaches its own verdict. -/
theorem probeAux_fuel (env : Nat → Attempt) (tmo : Nat) :
    ∀ fuel i t, t ≤ tmo + retryDelay → tmo + retryDelay < t + retryDelay * fuel →
      probeAux env tmo i t fuel ≠ .fuelOut := by
  intro fuel
  induction fuel with
  | zero =>
    intro i t h1 h2
    simp only [retryDelay] at h1 h2
    omega
  | succ n ih =>
    intro i t h1 h2
    rw [probeAux]
    cases hR : attemptResolve (env i) with
    | true => simp
    | false =>
      rw [if_neg (show ¬(false = true) by decide)]
      split
      · simp
      · next hle =>
        apply ih (i + 1)
        · simp only [retryDelay] at *; omega
        · simp only [retryDelay] at *; omega

/-- Rejection depends only on the attempts up to the rejecting index: any
environment that agrees with the original one on attempts i..k produces
the same rejection, so attempts after a rejection are never consulted. -/
theorem probeAux_agree (tmo : Nat) :
    ∀ fuel (env env' : Nat → Attempt) i t t' k,
      probeAux env tmo i t fuel = .rejected t' k →
      (∀ j, i ≤ j → j ≤ k → env' j = env j) →
      probeAux env' tmo i t fuel = .rejected t' k := by
  intro fuel
  induction fuel with
  | zero => intro env env' i t t' k h _; simp [probeAux] at h
  | succ n ih =>
    intro env env' i t t' k h hag
    have hik : i ≤ k := (probeAux_rejected env tmo (n + 1) i t t' k h).2.1
    have henv : env' i = env i := hag i (le_refl i) hik
    rw [probeAux] at h ⊢
    rw [henv]
    cases hR : attemptResolve (env i) with
    | true => rw [if_pos hR] at h; simp at h
    | false =>
      rw [if_neg (show ¬(false = true) by decide)]
      rw [if_neg (by simp [hR])] at h
      split at h <;> rename_i hsplit
      · rw [if_pos hsplit]; exact h
      · rw [if_neg hsplit]
        exact ih env env' (i + 1) _ t' k h
          (fun j hij hji => hag j (by omega) hji)

/-- The checkServer wrapper never runs out of fuel: the loop always ends in
its own resolve or reject. -/
theorem checkServer_ne_fuelOut (env : Nat → Attempt) (tmo : Nat) :
    checkServer env tmo ≠ .fuelOut := by
  apply probeAux_fuel
  · exact Nat.zero_le _
  · simp only [retryDelay]
    omega

/-- Iterating cleanup at least once always ends in the empty reference state
and emits exactly the events of the first call. -/
theorem cleanupN_succ : ∀ (m : Nat) (s : Procs),
    cleanupN (m + 1) s = (⟨false, false⟩, (cleanup s).2) := by
  intro m
  induction m with
  | zero => intro s; simp [cleanupN, cleanup]
  | succ n ih =>
    intro s
    rw [cleanupN, ih]
    simp [cleanup]

/-- C1, counterexample: against a backend endpoint that never becomes ready
(every probe attempt is refused), the startup sequence of main.js still
spawns the frontend — the trace records spawnFrontend right after
spawnBackend, before any readiness result — and then tears both down and
quits.  This refutes the claim that no frontend process is ever spawned
when the backend probe never succeeds, and with it the dependency-order
claim. -/
theorem c1_counterexample :
    startupTrace refuseAlways refuseAlways =
      [Ev.spawnBackend, Ev.spawnFrontend, Ev.killBackend, Ev.killFrontend,
        Ev.quitApp] := by
  decide

/-- C1, amended: the supervisor invokes both start calls unconditionally
before awaiting any readiness, so every startup trace begins with
spawnBackend followed immediately by spawnFrontend; when the backend
probe rejects, the catch block terminates both already-spawned processes
and quits, so the frontend was spawned but is cleaned up. -/
theorem c1_theorem (benv fenv : Nat → Attempt) :
    (startupTrace benv fenv).take 2 = [Ev.spawnBackend, Ev.spawnFrontend] ∧
    (∀ t k, checkServer benv 60000 = .rejected t k →
      startupTrace benv fenv =
        [Ev.spawnBackend, Ev.spawnFrontend, Ev.killBackend, Ev.killFrontend,
          Ev.quitApp]) := by
  constructor
  · rfl
  · intro t k h
    simp [startupTrace, h, probeOk, cleanup]

/-- C1, witness for the amended theorem at a concrete never-ready backend. -/
theorem c1_witness :
    checkServer refuseAlways 60000 = .rejected 60500 121 ∧
    startupTrace refuseAlways refuseAlways =
      [Ev.spawnBackend, Ev.spawnFrontend, Ev.killBackend, Ev.killFrontend,
        Ev.quitApp] :=
  ⟨by decide, (c1_theorem refuseAlways refuseAlways).2 60500 121 (by decide)⟩

/-- C2, counterexample: with both services tracked, cleanup signals the
backend first and the frontend second — the same order in which they were
started — not the reverse order the claim requires. -/
theorem c2_counterexample :
    (cleanup ⟨true, true⟩).2 = [Ev.killBackend, Ev.killFrontend] ∧
    (cleanup ⟨true, true⟩).2 ≠ [Ev.killFrontend, Ev.killBackend] := by
  decide

/-- C2, amended: teardown signals the tracked services in the same order as
start (backend before frontend), never in reverse start order. -/
theorem c2_theorem (s : Procs) :
    (cleanup s).2 ≠ [Ev.killFrontend, Ev.killBackend] ∧
    (s.python = true → s.next = true →
      (cleanup s).2 = [Ev.killBackend, Ev.killFrontend]) := by
  obtain ⟨p, n⟩ := s
  cases p <;> cases n <;> decide

/-- C2, witness for the amended theorem with both processes tracked. -/
theorem c2_witness :
    (⟨true, true⟩ : Procs).python = true ∧
    (cleanup ⟨true, true⟩).2 = [Ev.killBackend, Ev.killFrontend] :=
  ⟨rfl, (c2_theorem ⟨true, true⟩).2 rfl rfl⟩

/-- C3, counterexample: an endpoint answering every attempt with HTTP 500 —
a non-success status — makes checkServer resolve true on the very first
attempt instead of retrying, refuting the claim that only a recognized
success indication (2xx) ends the probe with Ready. -/
theorem c3_counterexample :
    checkServer serverError 30000 = .resolved true 0 0 ∧
    ¬(200 ≤ 500 ∧ 500 < 300) := by
  decide

/-- C3, amended: a poll attempt counts as successful exactly when any HTTP
response arrives within the per-attempt timeout, regardless of its status
code; the probe then resolves true immediately on the first attempt. -/
theorem c3_theorem (env : Nat → Attempt) (tmo status d : Nat)
    (hd : d ≤ reqTimeout) (he : env 0 = .response status d) :
    checkServer env tmo = .resolved true d 0 := by
  unfold checkServer
  rw [show tmo / retryDelay + 2 = tmo / retryDelay + 1 + 1 from rfl]
  rw [probeAux, he]
  rw [if_pos (by simp [attemptResolve]; exact hd)]
  simp [attemptTime, Nat.min_eq_left hd]

/-- C3, witness for the amended theorem at a concrete HTTP 500 endpoint. -/
theorem c3_witness :
    (0 ≤ reqTimeout ∧ serverError 0 = .response 500 0) ∧
    checkServer serverError 30000 = .resolved true 0 0 :=
  ⟨⟨by decide, rfl⟩, c3_theorem serverError 30000 500 0 (by decide) rfl⟩

/-- C4, counterexample: when a running backend exits on its own with both
services tracked, the installed exit listener emits no event at all — no
termination of the frontend, no quit — and the frontend stays tracked,
refuting the claimed ShuttingDown transition and UnexpectedExit
teardown. -/
theorem c4_counterexample :
    (onBackendExit ⟨true, true⟩).2 = [] ∧
    (onBackendExit ⟨true, true⟩).1.next = true := by
  decide

/-- C4, amended: the exit listener of the backend process only logs and
clears the backend reference; it sends no signal and does not quit, the
frontend remains tracked and running, and only a later cleanup (from a
quit or window-all-closed event) terminates it. -/
theorem c4_theorem (s : Procs) :
    (onBackendExit s).2 = [] ∧
    (onBackendExit s).1 = ⟨false, s.next⟩ ∧
    (cleanup (onBackendExit s).1).2 =
      (if s.next then [Ev.killFrontend] else []) := by
  obtain ⟨p, n⟩ := s
  cases p <;> cases n <;> decide

/-- C5, counterexample: cleanup sends the tracked backend exactly one
SIGTERM and nothing else, and a process that ignores SIGTERM therefore
survives teardown — refuting the claimed grace-period wait and forceful
kill escalation. -/
theorem c5_counterexample :
    backendKillSignals ⟨true, true⟩ = [Sig.sigterm] ∧
    survivesTeardown true (backendKillSignals ⟨true, true⟩) = true := by
  decide

/-- C5, amended: teardown sends each tracked service exactly one graceful
SIGTERM, never a SIGKILL and never a second signal, so a service survives
teardown exactly when it ignores SIGTERM. -/
theorem c5_theorem (s : Procs) (ig : Bool) :
    Sig.sigkill ∉ backendKillSignals s ∧
    Sig.sigkill ∉ frontendKillSignals s ∧
    (backendKillSignals s).length ≤ 1 ∧
    (frontendKillSignals s).length ≤ 1 ∧
    survivesTeardown ig [Sig.sigterm] = ig := by
  obtain ⟨p, n⟩ := s
  cases p <;> cases n <;> cases ig <;> decide

/-- C6, counterexample: with deadline 1000 ms, an endpoint refusing every
attempt instantly is rejected only at 1500 ms — outside the 900..1300 ms
window the claim requires — because the deadline is only checked when an
attempt fails and the fixed retry delay is 500 ms; and a single attempt
hanging until its 2000 ms per-attempt timeout is awaited in full, with
rejection at 2000 ms, so in-flight attempts are not abandoned at the
deadline. -/
theorem c6_counterexample :
    checkServer refuseAlways 1000 = .rejected 1500 3 ∧
    ¬(900 ≤ 1500 ∧ 1500 ≤ 1300) ∧
    checkServer (fun _ => .failAfter 5000) 1000 = .rejected 2000 0 := by
  decide

/-- C6, amended: the probe checks elapsed time only when an attempt fails,
awaiting any in-flight attempt, so rejection always happens strictly
after the deadline, at the completion instant of a failing attempt; with
the fixed 500 ms retry delay and deadline 1000 ms a permanently refusing
endpoint is rejected at 1500 ms. -/
theorem c6_theorem :
    checkServer refuseAlways 1000 = .rejected 1500 3 ∧
    (∀ (env : Nat → Attempt) (tmo t k : Nat),
      checkServer env tmo = .rejected t k → tmo < t) := by
  refine ⟨by decide, ?_⟩
  intro env tmo t k h
  exact (probeAux_rejected env tmo _ 0 0 t k h).1

/-- C6, witness for the amended theorem at the concrete refusing endpoint. -/
theorem c6_witness :
    checkServer refuseAlways 1000 = .rejected 1500 3 ∧ 1000 < 1500 :=
  ⟨by decide, c6_theorem.2 refuseAlways 1000 1500 3 (by decide)⟩

/-- C7, counterexample: when the backend never becomes ready, the startup
sequence quits via app.quit() and the session terminates with exit
status 0, not a non-zero distinguishable code. -/
theorem c7_counterexample :
    startupExitStatus refuseAlways refuseAlways = some 0 := by
  decide

/-- C7, amended: whenever the startup sequence terminates the session, the
exit status is 0 — startup failures are not distinguishable from clean
shutdown by exit code, since main.js only ever calls app.quit() without a
code. -/
theorem c7_theorem (benv fenv : Nat → Attempt) (c : Nat)
    (h : startupExitStatus benv fenv = some c) : c = 0 := by
  unfold startupExitStatus at h
  split at h
  · exact (Option.some.inj h).symm
  · exact absurd h (by simp)

/-- C7, witness for the amended theorem at a concrete failing startup. -/
theorem c7_witness :
    startupExitStatus refuseAlways refuseAlways = some 0 ∧ 0 = 0 :=
  ⟨by decide, c7_theorem refuseAlways refuseAlways 0 (by decide)⟩

/-- C8: invoking cleanup N ≥ 1 times from any state produces exactly the one
teardown sequence of the first call — one SIGTERM event per tracked
process — leaves both references null, and every further call is a no-op
on the emptied state. -/
theorem c8_theorem (n : Nat) (s : Procs) (h : 1 ≤ n) :
    cleanupN n s = (⟨false, false⟩, (cleanup s).2) ∧
    cleanup (cleanupN n s).1 = (⟨false, false⟩, []) := by
  obtain ⟨m, rfl⟩ : ∃ m, n = m + 1 := ⟨n - 1, by omega⟩
  refine ⟨cleanupN_succ m s, ?_⟩
  rw [cleanupN_succ m s]
  rfl

/-- C8, witness: three invocations from the fully tracked state. -/
theorem c8_witness :
    1 ≤ 3 ∧ cleanupN 3 ⟨true, true⟩ = (⟨false, false⟩, (cleanup ⟨true, true⟩).2) :=
  ⟨by decide, (c8_theorem 3 ⟨true, true⟩ (by decide)).1⟩

/-- C9: the checkServer promise always reaches a verdict and never resolves
with false; when it resolves it does so with true at the first attempt
that received a response, all earlier attempts having failed; when every
attempt fails it eventually rejects, strictly after the deadline; and a
rejection depends only on the attempts up to the rejecting one, so no
further poll is consulted after rejection. -/
theorem c9_theorem (env : Nat → Attempt) (tmo : Nat) :
    checkServer env tmo ≠ .fuelOut ∧
    (∀ b t k, checkServer env tmo = .resolved b t k →
      b = true ∧ attemptResolve (env k) = true ∧
        ∀ j, j < k → attemptResolve (env j) = false) ∧
    ((∀ j, attemptResolve (env j) = false) →
      ∃ t k, checkServer env tmo = .rejected t k ∧ tmo < t) ∧
    (∀ (t k : Nat) (env' : Nat → Attempt),
      checkServer env tmo = .rejected t k →
      (∀ j, j ≤ k → env' j = env j) → checkServer env' tmo = .rejected t k) := by
  refine ⟨checkServer_ne_fuelOut env tmo, ?_, ?_, ?_⟩
  · intro b t k h
    obtain ⟨hb, -, hk, hall⟩ := probeAux_resolved env tmo _ 0 0 b t k h
    exact ⟨hb, hk, fun j hj => hall j (Nat.zero_le j) hj⟩
  · intro hfail
    obtain ⟨r, hr⟩ : ∃ r, checkServer env tmo = r := ⟨_, rfl⟩
    cases r with
    | resolved b t k =>
      obtain ⟨-, -, hk, -⟩ := probeAux_resolved env tmo _ 0 0 b t k hr
      rw [hfail k] at hk
      exact absurd hk (by decide)
    | rejected t k =>
      exact ⟨t, k, hr, (probeAux_rejected env tmo _ 0 0 t k hr).1⟩
    | fuelOut => exact absurd hr (checkServer_ne_fuelOut env tmo)
  · intro t k env' h hag
    exact probeAux_agree tmo _ env env' 0 0 t k h (fun j _ hj => hag j hj)

/-- C9, witness: the environment lateSuccess agrees with refuseAlways on
attempts 0..3 and would answer HTTP 200 from attempt 4 on, yet the probe
still rejects at 1500 ms on attempt 3 — attempts past the rejection are
never consulted. -/
theorem c9_witness :
    checkServer lateSuccess 1000 = .rejected 1500 3 ∧
    attemptResolve (lateSuccess 4) = true :=
  ⟨(c9_theorem refuseAlways 1000).2.2.2 1500 3 lateSuccess (by decide)
      (fun j hj => by simp [lateSuccess, refuseAlways, hj]),
    by decide⟩

/-- C10: on darwin, the window-all-closed handler runs cleanup — SIGTERM to
backend then frontend — without quitting the app, and a subsequent
activate event with no open window creates the main window again while
spawning no service process, leaving both service references null. -/
theorem c10_theorem (s : AppState) (hp : s.platform = "darwin")
    (hw : s.windows = 0) (hs : s.procs = ⟨true, true⟩) :
    (onWindowAllClosed s).2 = [Ev.killBackend, Ev.killFrontend] ∧
    Ev.quitApp ∉ (onWindowAllClosed s).2 ∧
    (onWindowAllClosed s).1.procs = ⟨false, false⟩ ∧
    (onWindowAllClosed s).1.windows = 0 ∧
    (onActivate (onWindowAllClosed s).1).2 = [Ev.createMainWindow] ∧
    Ev.spawnBackend ∉ (onActivate (onWindowAllClosed s).1).2 ∧
    Ev.spawnFrontend ∉ (onActivate (onWindowAllClosed s).1).2 ∧
    (onActivate (onWindowAllClosed s).1).1.procs = ⟨false, false⟩ := by
  obtain ⟨p, pr, w⟩ := s
  replace hp : p = "darwin" := hp
  replace hw : w = 0 := hw
  replace hs : pr = (⟨true, true⟩ : Procs) := hs
  subst hp
  subst hw
  subst hs
  decide

/-- C10, witness at the concrete darwin state with both services tracked. -/
theorem c10_witness :
    darwinState.platform = "darwin" ∧
    (onWindowAllClosed darwinState).2 = [Ev.killBackend, Ev.killFrontend] :=
  ⟨rfl, (c10_theorem darwinState rfl rfl rfl).1⟩

end Supervisor
